import Mathlib

/-!
Shallow embedding of the MangoSense prediction backend
(`mangosense/views/ml_views.py`, `mangosense/views/utils.py`,
`mangosense/views/confirmation_views.py`, `mangosense/models.py`).

Probabilities and confidence scores are modelled as exact rationals (`ℚ`);
the properties verified here concern orderings, thresholds and record
creation, which the float/rational distinction does not affect at the
inputs considered.  HTTP requests are modelled by a record carrying the
uploaded file's metadata together with the outcomes of the external
effects (PIL decode, model file lookup, keras load, inference output,
storage write); the database is a record of lists of rows.
-/

/-! ### Label sets and treatments (ml_views.py, module level) -/

def LEAF_CLASS_NAMES : List String :=
  ["Anthracnose", "Bacterial Canker", "Cutting Weevil", "Die Back", "Gall Midge",
   "Healthy", "Powdery Mildew", "Sooty Mold"]

def FRUIT_CLASS_NAMES : List String :=
  ["Anthracnose", "Black Mold Rot", "Healthy", "Stem End Rot"]

def treatment_suggestions : List (String × String) :=
  [("Anthracnose", "The diseased twigs should be pruned and burnt along with fallen leaves. Spraying twice with Carbendazim (Bavistin 0.1%) at 15 days interval during flowering controls blossom infection."),
   ("Bacterial Canker", "Three sprays of Streptocycline (0.01%) or Agrimycin-100 (0.01%) after first visual symptom at 10 day intervals are effective in controlling the disease."),
   ("Cutting Weevil", "Use recommended insecticides and remove infested plant material."),
   ("Die Back", "Pruning of the diseased twigs 2-3 inches below the affected portion and spraying Copper Oxychloride (0.3%) on infected trees controls the disease."),
   ("Gall Midge", "Remove and destroy infested fruits; use appropriate insecticides."),
   ("Healthy", "No treatment needed. Maintain good agricultural practices."),
   ("Powdery Mildew", "Alternate spraying of Wettable sulphur 0.2 per cent at 15 days interval are recommended for effective control of the disease."),
   ("Sooty Mold", "Pruning of affected branches and their prompt destruction followed by spraying of Wettasulf (0.2%) helps to control the disease."),
   ("Black Mold Rot", "Improve air circulation and apply fungicides as needed."),
   ("Stem End Rot", "Proper post-harvest handling and storage conditions are essential.")]

/-- `treatment_suggestions.get(d, "No treatment information available.")` -/
def lookupTreatment (d : String) : String :=
  match treatment_suggestions.lookup d with
  | some t => t
  | none => "No treatment information available."

/-! ### utils.py: validation and confidence tiers -/

structure UploadedFile where
  size : ℕ
  content_type : String
  name : String
  deriving DecidableEq

def allowed_types : List String :=
  ["image/jpeg", "image/jpg", "image/png", "image/webp"]

def allowed_extensions : List String := [".jpg", ".jpeg", ".png", ".webp"]

/-- ASCII lowercasing of one character (Python `str.lower` restricted to
the ASCII range, which covers the filenames this system compares
against its ASCII extension whitelist). -/
def lowerChar (c : Char) : Char :=
  if 65 ≤ c.toNat ∧ c.toNat ≤ 90 then Char.ofNat (c.toNat + 32) else c

/-- Python `s.split('.')` on a character list: the list of segments
between dots (`''.split('.') == ['']`, `'x.'.split('.') == ['x','']`). -/
def splitDots : List Char → List (List Char)
  | [] => [[]]
  | c :: rest =>
    match splitDots rest with
    | seg :: segs => if c = '.' then [] :: seg :: segs else (c :: seg) :: segs
    | [] => [[]]

/-- Python `image_file.name.lower().split('.')[-1]` -/
def file_extension (name : String) : String :=
  String.mk ((splitDots (name.data.map lowerChar)).getLastD [])

/-- `validate_image_file` (utils.py lines 36-55): accumulates all violated
constraints into one error list; pure. -/
def validate_image_file (f : UploadedFile) : List String :=
  (if f.size > 10 * 1024 * 1024 then ["Image size must be less than 10MB"] else []) ++
  (if f.content_type ∈ allowed_types then [] else ["Only JPEG, PNG, and WebP images are allowed"]) ++
  (if ("." ++ file_extension f.name) ∈ allowed_extensions then [] else ["Invalid file extension"])

/-- `calculate_confidence_level` (utils.py lines 62-71); input is the raw
probability in `[0,1]`. -/
def calculate_confidence_level (confidence_score : ℚ) : String :=
  if confidence_score ≥ 8/10 then "High"
  else if confidence_score ≥ 6/10 then "Medium"
  else if confidence_score ≥ 4/10 then "Low"
  else "Very Low"

/-! ### Rounding helpers

Python's `round(x, 2)` and `f"{x:.2f}"` round half to even.  (On binary
floats the half case is about the exact binary value; on the rational
model we take the exact rule, which agrees at all inputs used here.) -/

def roundHalfEven (x : ℚ) : ℤ :=
  let f : ℤ := ⌊x⌋
  let frac : ℚ := x - f
  if frac < 1/2 then f
  else if frac > 1/2 then f + 1
  else if f % 2 = 0 then f else f + 1

/-- `round(x, 2)` on the rational model. -/
def round2 (x : ℚ) : ℚ := (roundHalfEven (x * 100) : ℚ) / 100

def pad2 (n : ℕ) : String := if n < 10 then "0" ++ toString n else toString n

/-- Decimal rendering of a nonnegative rational with two places,
as produced by Python format string with two places (nonnegative inputs). -/
def format2 (x : ℚ) : String :=
  let n := roundHalfEven (x * 100)
  toString (n / 100) ++ "." ++ pad2 (n % 100).toNat

/-! ### utils.py: get_prediction_summary

`np.argsort` with numpy's default sort is stable on the array sizes this
system produces (8 or 4 entries; numpy sorts short arrays by insertion
sort), so it is modelled as a stable ascending insertion sort of the
index list; ties keep ascending original-index order in the ascending
sort.  `top_3_indices = np.argsort(predictions)[-3:][::-1]`. -/

/-- Insert index `i` into an ascending-sorted index list, after all
entries whose value is `≤` the value at `i` (stability: `i` is larger
than every index already present). -/
def insertIdx (v : List ℚ) (i : ℕ) : List ℕ → List ℕ
  | [] => [i]
  | j :: rest => if v.getD i 0 < v.getD j 0 then i :: j :: rest else j :: insertIdx v i rest

def argsortAux (v : List ℚ) : ℕ → List ℕ
  | 0 => []
  | n + 1 => insertIdx v n (argsortAux v n)

/-- Stable ascending argsort of `v` (model of `np.argsort(v)`). -/
def argsort (v : List ℚ) : List ℕ := argsortAux v v.length

/-- `np.argsort(predictions)[-3:][::-1]` (utils.py line 98). -/
def top_3_indices (predictions : List ℚ) : List ℕ :=
  ((argsort predictions).drop (predictions.length - 3)).reverse

/-- The strict order in which the stable ascending argsort emits
indices: by value, ties by ascending original index. -/
def ltIdx (v : List ℚ) (i j : ℕ) : Prop :=
  v.getD i 0 < v.getD j 0 ∨ (v.getD i 0 = v.getD j 0 ∧ i < j)

structure TopEntry where
  rank : ℕ
  disease : String
  confidence : ℚ
  deriving DecidableEq

structure PredictionSummary where
  primary_disease : String
  primary_confidence : ℚ
  top_3 : List TopEntry
  confidence_level : String
  deriving DecidableEq

/-- The `for i, idx in enumerate(top_3_indices)` loop of
`get_prediction_summary`; `r` is the number of entries already built.
A failing index access models the `IndexError` the Python loop would
raise. -/
def mkTop3 (predictions : List ℚ) (class_names : List String) :
    ℕ → List ℕ → Option (List TopEntry)
  | _, [] => some []
  | r, i :: rest =>
    match class_names.get? i, predictions.get? i,
          mkTop3 predictions class_names (r + 1) rest with
    | some d, some p, some tail =>
      some ({ rank := r + 1, disease := d, confidence := round2 (p * 100) } :: tail)
    | _, _, _ => none

/-- `get_prediction_summary` (utils.py lines 93-118).  `none` models an
`IndexError` escaping to the caller's generic handler. -/
def get_prediction_summary (predictions : List ℚ) (class_names : List String) :
    Option PredictionSummary :=
  match (top_3_indices predictions).head? with
  | none => none
  | some i0 =>
    match class_names.get? i0, predictions.get? i0,
          mkTop3 predictions class_names 0 (top_3_indices predictions) with
    | some d0, some p0, some top3 =>
      some { primary_disease := d0, primary_confidence := p0 * 100,
             top_3 := top3, confidence_level := calculate_confidence_level p0 }
    | _, _, _ => none

/-! ### models.py -/

structure MangoImageRec where
  id : ℕ
  original_filename : String
  predicted_class : String
  disease_classification : String
  disease_type : String
  confidence_score : ℚ
  image_size : String
  client_ip : String
  notes : String
  deriving DecidableEq

/-- `MangoImage.save` (models.py lines 47-51): backfill
`disease_classification` from `predicted_class` when blank (Python
truthiness on strings is non-emptiness). -/
def mangoImageSave (m : MangoImageRec) : MangoImageRec :=
  if m.predicted_class ≠ "" ∧ m.disease_classification = "" then
    { m with disease_classification := m.predicted_class }
  else m

structure PredictionLogRec where
  image_id : Option ℕ
  client_ip : String
  user_agent : String
  response_time : ℚ
  deriving DecidableEq

/-- Field names of the `PredictionLog` model (models.py lines 53-65):
`image`, `timestamp`, `client_ip`, `user_agent`, `response_time` and
nothing else. -/
def predictionLogFields : List String :=
  ["id", "image", "timestamp", "client_ip", "user_agent", "response_time"]

/-- Keyword arguments passed to `PredictionLog.objects.create` at
ml_views.py lines 288-297. -/
def predictionLogCreateKwargs : List String :=
  ["image", "client_ip", "user_agent", "response_time",
   "probabilities", "labels", "prediction_summary", "raw_response"]

/-- Django `Model.__init__` raises `TypeError` when a keyword argument is
not a model field; creation succeeds only when every kwarg is a field. -/
def djangoCreateOk (fields kwargs : List String) : Bool :=
  kwargs.all (fields.contains ·)

structure DB where
  images : List MangoImageRec
  logs : List PredictionLogRec
  deriving DecidableEq

/-! ### ml_views.py: the prediction endpoint

The request record carries the uploaded file plus the outcomes of the
external effects along the pipeline: whether PIL decode succeeds
(`preprocess_ok`, with the decoded original size), whether the selected
model artifact exists and loads, the probability vector the model
returns (`none` models an exception during `model.predict`), and whether
the `MangoImage` storage write succeeds. -/

structure Request where
  has_image : Bool
  file : UploadedFile
  detection_type : Option String
  preprocess_ok : Bool
  original_size : ℕ × ℕ
  model_exists : Bool
  model_loads : Bool
  inference : Option (List ℚ)
  storage_ok : Bool
  client_ip : String
  user_agent : String
  response_time : ℚ
  deriving DecidableEq

/-- Model selection, ml_views.py lines 134-141: anything but the exact
string "fruit" selects the leaf model. -/
def modelUsedFor (dt : String) : String := if dt = "fruit" then "fruit" else "leaf"

def classNamesFor (dt : String) : List String :=
  if dt = "fruit" then FRUIT_CLASS_NAMES else LEAF_CLASS_NAMES

/-- `detection_type = request.data.get('detection_type', 'leaf')`. -/
def detectionTypeOf (req : Request) : String := req.detection_type.getD "leaf"

structure PrimaryPrediction where
  disease : String
  confidence_score : ℚ
  confidence_level : String
  treatment : String
  detection_type : String
  deriving DecidableEq

structure TopEntryFull where
  rank : ℕ
  disease : String
  confidence : ℚ
  treatment : String
  detection_type : String
  deriving DecidableEq

structure ResponseData where
  primary_prediction : PrimaryPrediction
  top_3_predictions : List TopEntryFull
  most_likely : String
  confidence_level : String
  total_diseases_checked : ℕ
  saved_image_id : Option ℕ
  model_used : String
  deriving DecidableEq

structure PredictOutcome where
  status : ℕ
  success : Bool
  message : String
  errors : List String
  data : Option ResponseData
  db : DB
  modelInvoked : Bool
  deriving DecidableEq

def CONFIDENCE_THRESHOLD : ℚ := 20

/-- The fixed guidance text of the low-confidence branch (ml_views.py
line 201); it is not the treatment of any disease label. -/
def UNKNOWN_TREATMENT_MSG : String :=
  "The uploaded image could not be confidently classified. Please ensure the image is of a mango leaf or fruit and try again."

/-- The low-confidence branch of `predict_image` (ml_views.py lines
195-227): "Unknown" payload, hardcoded "Low" tier, empty top-3, no
database writes. -/
def unknownOutcome (db : DB) (req : Request) (summary : PredictionSummary) : PredictOutcome :=
  let model_used := modelUsedFor (detectionTypeOf req)
  let model_class_names := classNamesFor (detectionTypeOf req)
  { status := 200, success := true,
    message := "Could not confidently classify the image. Please upload a clear image of a mango leaf or fruit.",
    errors := [],
    data := some {
      primary_prediction := {
        disease := "Unknown",
        confidence_score := summary.primary_confidence,
        confidence_level := "Low",
        treatment := UNKNOWN_TREATMENT_MSG,
        detection_type := model_used },
      top_3_predictions := [],
      most_likely := "Unknown",
      confidence_level := "Low",
      total_diseases_checked := model_class_names.length,
      saved_image_id := none,
      model_used := model_used },
    db := db, modelInvoked := true }

/-- The confident branch of `predict_image` (ml_views.py lines 229-308):
treatments attached, `MangoImage` written when storage permits (failure
swallowed, `saved_image_id` null), `PredictionLog.objects.create` called
with keyword arguments that are not model fields (so it raises
`TypeError`, which is swallowed and leaves `logs` unchanged). -/
def confidentOutcome (db : DB) (req : Request) (summary : PredictionSummary) : PredictOutcome :=
  let model_used := modelUsedFor (detectionTypeOf req)
  let model_class_names := classNamesFor (detectionTypeOf req)
  let top3full := summary.top_3.map (fun e =>
    { rank := e.rank, disease := e.disease, confidence := e.confidence,
      treatment := lookupTreatment e.disease,
      detection_type := model_used : TopEntryFull })
  let saveResult :=
    if req.storage_ok then
      let rec0 : MangoImageRec := {
        id := db.images.length + 1,
        original_filename := req.file.name,
        predicted_class := summary.primary_disease,
        disease_classification := summary.primary_disease,
        disease_type := model_used,
        confidence_score := summary.primary_confidence / 100,
        image_size := toString req.original_size.1 ++ "x" ++ toString req.original_size.2,
        client_ip := req.client_ip,
        notes := "Predicted via mobile app with " ++ format2 summary.primary_confidence ++ "% confidence" }
      let saved := mangoImageSave rec0
      ({ images := db.images ++ [saved], logs := db.logs : DB }, some saved.id)
    else (db, (none : Option ℕ))
  let db1 := saveResult.1
  let saved_image_id := saveResult.2
  let data : ResponseData := {
    primary_prediction := {
      disease := summary.primary_disease,
      confidence_score := summary.primary_confidence,
      confidence_level := summary.confidence_level,
      treatment := lookupTreatment summary.primary_disease,
      detection_type := model_used },
    top_3_predictions := top3full,
    most_likely := summary.primary_disease,
    confidence_level := summary.confidence_level,
    total_diseases_checked := model_class_names.length,
    saved_image_id := saved_image_id,
    model_used := model_used }
  let db2 :=
    if djangoCreateOk predictionLogFields predictionLogCreateKwargs then
      { images := db1.images, logs := db1.logs ++
          [{ image_id := saved_image_id, client_ip := req.client_ip,
             user_agent := req.user_agent, response_time := req.response_time }] : DB }
    else db1
  { status := 200, success := true, message := "Image processed successfully",
    errors := [], data := some data, db := db2, modelInvoked := true }

/-- `predict_image` (ml_views.py lines 73-322), as a function of the
incoming database state and the request.  `modelInvoked` records whether
control reached the `tf.keras.models.load_model` call.  Exception
message strings coming from library exceptions are modelled by fixed
placeholders (their content is environment-dependent). -/
def predict_image (db : DB) (req : Request) : PredictOutcome :=
  if req.has_image = false then
    { status := 400, success := false, message := "No image uploaded",
      errors := ["Image file is required"], data := none, db := db, modelInvoked := false }
  else
    let validation_errors := validate_image_file req.file
    if validation_errors ≠ [] then
      { status := 400, success := false, message := "Invalid image file",
        errors := validation_errors, data := none, db := db, modelInvoked := false }
    else if req.preprocess_ok = false then
      { status := 500, success := false, message := "Image preprocessing failed",
        errors := ["preprocessing exception"], data := none, db := db, modelInvoked := false }
    else
      let dt := detectionTypeOf req
      let model_used := modelUsedFor dt
      let model_class_names := classNamesFor dt
      if req.model_exists = false then
        { status := 500, success := false, message := "Model file not found: " ++ model_used,
          errors := ["model file does not exist"], data := none, db := db, modelInvoked := false }
      else if req.model_loads = false then
        { status := 500, success := false, message := "Failed to load ML model",
          errors := ["model loading exception"], data := none, db := db, modelInvoked := true }
      else
        match req.inference with
        | none =>
          { status := 500, success := false, message := "ML prediction failed",
            errors := ["prediction exception"], data := none, db := db, modelInvoked := true }
        | some prediction =>
          match get_prediction_summary prediction model_class_names with
          | none =>
            -- IndexError escapes to the outer handler (ml_views.py lines 310-322)
            { status := 500, success := false, message := "Prediction failed",
              errors := ["unexpected exception"], data := none, db := db, modelInvoked := true }
          | some summary =>
            if summary.primary_confidence < CONFIDENCE_THRESHOLD then
              unknownOutcome db req summary
            else
              confidentOutcome db req summary

/-! ### confirmation_views.py: save_user_confirmation -/

structure ConfRequest where
  image_id : Option ℕ
  is_correct : Option Bool
  predicted_disease : String
  user_feedback : String
  client_ip : String
  deriving DecidableEq

structure ConfirmationRec where
  image_id : ℕ
  is_correct : Bool
  predicted_disease : String
  user_feedback : String
  client_ip : String
  deriving DecidableEq

structure ConfState where
  images : List ℕ
  confirmations : List ConfirmationRec
  deriving DecidableEq

structure ConfOutcome where
  status : ℕ
  success : Bool
  message : String
  state : ConfState
  deriving DecidableEq

/-- `save_user_confirmation` (confirmation_views.py lines 12-141):
missing-field check, image lookup, duplicate check, create. -/
def save_user_confirmation (st : ConfState) (req : ConfRequest) : ConfOutcome :=
  if req.image_id.isNone ∨ req.is_correct.isNone ∨ req.predicted_disease = "" then
    { status := 400, success := false, message := "Missing required fields", state := st }
  else
    let iid := req.image_id.getD 0
    let isc := req.is_correct.getD false
    if iid ∉ st.images then
      { status := 404, success := false, message := "Image not found", state := st }
    else if st.confirmations.any (fun c => c.image_id = iid) then
      { status := 400, success := false,
        message := "Confirmation already exists for this image", state := st }
    else
      { status := 200, success := true, message := "User confirmation saved successfully",
        state := { images := st.images,
                   confirmations := st.confirmations ++
                     [{ image_id := iid, is_correct := isc,
                        predicted_disease := req.predicted_disease,
                        user_feedback := req.user_feedback,
                        client_ip := req.client_ip }] } }

/-! ### Concrete fixtures used by witnesses and counterexamples -/

def okFile : UploadedFile := { size := 1000, content_type := "image/jpeg", name := "mango.jpg" }

def db0 : DB := { images := [], logs := [] }

/-- A probability vector with a confident (90%) primary prediction. -/
def probsHigh : List ℚ := [9/10, 1/10, 0, 0, 0, 0, 0, 0]

/-- A probability vector whose primary confidence (10%) is below the
threshold. -/
def probsLow : List ℚ := [1/10, 1/10, 1/10, 1/10, 1/10, 1/10, 1/10, 1/10]

/-- A request whose model output is confidently `Anthracnose` (leaf). -/
def reqHigh : Request :=
  { has_image := true, file := okFile, detection_type := none,
    preprocess_ok := true, original_size := (640, 480),
    model_exists := true, model_loads := true,
    inference := some probsHigh,
    storage_ok := true, client_ip := "127.0.0.1", user_agent := "ua", response_time := 1 }

/-- A request whose primary confidence (10%) is below the threshold. -/
def reqLow : Request :=
  { reqHigh with inference := some probsLow }

/-- A confident request whose storage write fails. -/
def reqNoStore : Request := { reqHigh with storage_ok := false }

/-- A confident request with an unrecognized detection type. -/
def reqBanana : Request := { reqHigh with detection_type := some "banana" }

/-- A request that fails upload validation on all three constraints. -/
def reqBadFile : Request :=
  { reqHigh with file := { size := 15 * 1024 * 1024, content_type := "text/plain", name := "a.txt" } }

/-- A request whose image decode (preprocessing) fails. -/
def reqBadDecode : Request := { reqHigh with preprocess_ok := false }

/-- The probability vector of the C3 tie counterexample: labels 0 and 1
share the maximal probability. -/
def cexProbs : List ℚ := [1/2, 1/2, 0, 0]

/-- The prediction summary the code computes for `probsHigh` over the
leaf label set. -/
def sHigh : PredictionSummary :=
  { primary_disease := "Anthracnose", primary_confidence := 90,
    top_3 := [{ rank := 1, disease := "Anthracnose", confidence := 90 },
              { rank := 2, disease := "Bacterial Canker", confidence := 10 },
              { rank := 3, disease := "Sooty Mold", confidence := 0 }],
    confidence_level := "High" }

/-- The prediction summary the code computes for `probsLow` over the
leaf label set (all probabilities tie, so the selected indices are the
last three). -/
def sLow : PredictionSummary :=
  { primary_disease := "Sooty Mold", primary_confidence := 10,
    top_3 := [{ rank := 1, disease := "Sooty Mold", confidence := 10 },
              { rank := 2, disease := "Powdery Mildew", confidence := 10 },
              { rank := 3, disease := "Healthy", confidence := 10 }],
    confidence_level := "Very Low" }

/-- A `MangoImage` row with a prediction but a blank classification. -/
def img0 : MangoImageRec :=
  { id := 1, original_filename := "a.jpg", predicted_class := "Healthy",
    disease_classification := "", disease_type := "leaf", confidence_score := 1/2,
    image_size := "640x480", client_ip := "127.0.0.1", notes := "" }

/-- An existing confirmation row for image 1. -/
def conf0 : ConfirmationRec :=
  { image_id := 1, is_correct := true, predicted_disease := "Healthy",
    user_feedback := "", client_ip := "127.0.0.1" }

/-- A store that already holds a confirmation for image 1. -/
def st0 : ConfState := { images := [1], confirmations := [conf0] }

/-- A well-formed confirmation request for image 1. -/
def confReq0 : ConfRequest :=
  { image_id := some 1, is_correct := some true, predicted_disease := "Healthy",
    user_feedback := "", client_ip := "127.0.0.1" }

/-! ### Helper lemmas shared by the claim theorems -/

theorem djangoCreateOk_predictionLog_false :
    djangoCreateOk predictionLogFields predictionLogCreateKwargs = false := by decide

theorem validate_okFile : validate_image_file okFile = [] := by decide

theorem classNames_reqHigh : classNamesFor (detectionTypeOf reqHigh) = LEAF_CLASS_NAMES := by
  simp [classNamesFor, detectionTypeOf, reqHigh]

theorem classNames_reqLow : classNamesFor (detectionTypeOf reqLow) = LEAF_CLASS_NAMES := by
  simp [classNamesFor, detectionTypeOf, reqLow, reqHigh]

theorem summary_probsHigh :
    get_prediction_summary probsHigh LEAF_CLASS_NAMES = some sHigh := by
  norm_num [get_prediction_summary, top_3_indices, argsort, argsortAux, insertIdx, mkTop3,
    probsHigh, sHigh, LEAF_CLASS_NAMES, round2, roundHalfEven, calculate_confidence_level]

theorem summary_probsLow :
    get_prediction_summary probsLow LEAF_CLASS_NAMES = some sLow := by
  norm_num [get_prediction_summary, top_3_indices, argsort, argsortAux, insertIdx, mkTop3,
    probsLow, sLow, LEAF_CLASS_NAMES, round2, roundHalfEven, calculate_confidence_level]

/-- Reaching the below-threshold branch: the request passes validation,
preprocessing, model lookup, loading and inference, and the primary
confidence is below the threshold. -/
theorem predict_image_unknown (db : DB) (req : Request) (probs : List ℚ)
    (s : PredictionSummary)
    (h1 : req.has_image = true) (h2 : validate_image_file req.file = [])
    (h3 : req.preprocess_ok = true) (h4 : req.model_exists = true)
    (h5 : req.model_loads = true) (h6 : req.inference = some probs)
    (hs : get_prediction_summary probs (classNamesFor (detectionTypeOf req)) = some s)
    (hc : s.primary_confidence < CONFIDENCE_THRESHOLD) :
    predict_image db req = unknownOutcome db req s := by
  simp [predict_image, h1, h2, h3, h4, h5, h6, hs, hc]

/-- Reaching the confident branch: as above but with primary confidence
at or above the threshold. -/
theorem predict_image_confident (db : DB) (req : Request) (probs : List ℚ)
    (s : PredictionSummary)
    (h1 : req.has_image = true) (h2 : validate_image_file req.file = [])
    (h3 : req.preprocess_ok = true) (h4 : req.model_exists = true)
    (h5 : req.model_loads = true) (h6 : req.inference = some probs)
    (hs : get_prediction_summary probs (classNamesFor (detectionTypeOf req)) = some s)
    (hc : ¬ s.primary_confidence < CONFIDENCE_THRESHOLD) :
    predict_image db req = confidentOutcome db req s := by
  simp [predict_image, h1, h2, h3, h4, h5, h6, hs, hc]

/-- C6: validation passes exactly when the size, declared MIME type and
filename extension constraints all hold; on failure every violated
constraint contributes its message; the validator is a pure function of
the file metadata. -/
theorem C6_validate_image_file (f : UploadedFile) :
    validate_image_file f =
      (if f.size > 10 * 1024 * 1024 then ["Image size must be less than 10MB"] else []) ++
      (if f.content_type ∈ allowed_types then [] else ["Only JPEG, PNG, and WebP images are allowed"]) ++
      (if ("." ++ file_extension f.name) ∈ allowed_extensions then [] else ["Invalid file extension"]) ∧
    (validate_image_file f = [] ↔
      f.size ≤ 10 * 1024 * 1024 ∧ f.content_type ∈ allowed_types ∧
      ("." ++ file_extension f.name) ∈ allowed_extensions) := by
  refine ⟨rfl, ?_⟩
  unfold validate_image_file
  by_cases h1 : f.size > 10 * 1024 * 1024 <;>
    by_cases h2 : f.content_type ∈ allowed_types <;>
      by_cases h3 : ("." ++ file_extension f.name) ∈ allowed_extensions <;>
        (simp [h1, h2, h3]; try omega)

/-- C10: `MangoImage.save` backfills a blank `disease_classification`
from a non-blank `predicted_class` and never overwrites a non-blank
`disease_classification`. -/
theorem C10_save_backfills_classification (m : MangoImageRec) :
    ((mangoImageSave m).predicted_class ≠ "" → (mangoImageSave m).disease_classification ≠ "") ∧
    (m.disease_classification ≠ "" → mangoImageSave m = m) ∧
    (m.predicted_class ≠ "" → m.disease_classification = "" →
      (mangoImageSave m).disease_classification = m.predicted_class) := by
  unfold mangoImageSave
  by_cases h1 : m.predicted_class = "" <;> by_cases h2 : m.disease_classification = "" <;>
    simp [h1, h2]

theorem C10_witness :
    (mangoImageSave img0).disease_classification = "Healthy" :=
  (C10_save_backfills_classification img0).2.2 (by decide) rfl

/-- C1: on a confident prediction the `MangoImage` row is created, but
the `PredictionLog.objects.create` call passes keyword arguments
(`probabilities`, `labels`, `prediction_summary`, `raw_response`) that
are not fields of the `PredictionLog` model, so it raises `TypeError`,
the exception is swallowed, and no `PredictionLog` row is ever created. -/
theorem C1_confident_prediction_creates_no_log :
    (predict_image db0 reqHigh).success = true ∧
    (predict_image db0 reqHigh).status = 200 ∧
    (predict_image db0 reqHigh).db.images.length = 1 ∧
    (predict_image db0 reqHigh).db.logs = [] ∧
    djangoCreateOk predictionLogFields predictionLogCreateKwargs = false := by
  have h := predict_image_confident db0 reqHigh probsHigh sHigh rfl validate_okFile
    rfl rfl rfl rfl (by rw [classNames_reqHigh]; exact summary_probsHigh)
    (by norm_num [sHigh, CONFIDENCE_THRESHOLD])
  rw [h]
  refine ⟨?_, ?_, ?_, ?_, djangoCreateOk_predictionLog_false⟩ <;>
    simp [confidentOutcome, djangoCreateOk_predictionLog_false, db0, reqHigh]

/-- C3 counterexample: probabilities `[1/2, 1/2, 0, 0]` tie at indices 0
and 1; the code orders index 1 before index 0 (descending, not ascending,
tie-break) and reports `"Black Mold Rot"` (label 1) as the primary
prediction instead of the first-seen argmax `"Anthracnose"` (label 0). -/
theorem C3_counterexample :
    cexProbs.getD 0 0 = cexProbs.getD 1 0 ∧
    top_3_indices cexProbs = [1, 0, 3] ∧
    (get_prediction_summary cexProbs FRUIT_CLASS_NAMES).map PredictionSummary.primary_disease =
      some "Black Mold Rot" ∧
    FRUIT_CLASS_NAMES.getD 0 "" = "Anthracnose" := by
  refine ⟨rfl, ?_, ?_, rfl⟩
  · norm_num [top_3_indices, argsort, argsortAux, insertIdx, cexProbs]
  · norm_num [get_prediction_summary, top_3_indices, argsort, argsortAux, insertIdx, mkTop3,
      cexProbs, FRUIT_CLASS_NAMES, round2, roundHalfEven, calculate_confidence_level]

/-- C4 counterexample: a primary raw probability of 0.1 should map to
"Very Low" under the claimed tier function, but the low-confidence
"Unknown" branch hardcodes the reported tier to "Low". -/
theorem C4_counterexample :
    (predict_image db0 reqLow).data.map (fun d => d.primary_prediction.confidence_level) =
      some "Low" ∧
    (predict_image db0 reqLow).data.map (fun d => d.primary_prediction.confidence_score) =
      some 10 ∧
    calculate_confidence_level (1/10) = "Very Low" := by
  have h := predict_image_unknown db0 reqLow probsLow sLow rfl validate_okFile
    rfl rfl rfl rfl (by rw [classNames_reqLow]; exact summary_probsLow)
    (by norm_num [sLow, CONFIDENCE_THRESHOLD])
  rw [h]
  refine ⟨?_, ?_, ?_⟩
  · simp [unknownOutcome]
  · simp [unknownOutcome, sLow]
  · norm_num [calculate_confidence_level]

/-- C2: when the primary confidence is below the threshold the pipeline
short-circuits: the response reports disease "Unknown" with an empty
top-3 list, the treatment text is the fixed guidance message (not the
treatment of any disease label), the database is unchanged, and the
request still completes as an HTTP 200 success. -/
theorem C2_low_confidence_short_circuits (db : DB) (req : Request) (probs : List ℚ)
    (s : PredictionSummary)
    (h1 : req.has_image = true) (h2 : validate_image_file req.file = [])
    (h3 : req.preprocess_ok = true) (h4 : req.model_exists = true)
    (h5 : req.model_loads = true) (h6 : req.inference = some probs)
    (hs : get_prediction_summary probs (classNamesFor (detectionTypeOf req)) = some s)
    (hc : s.primary_confidence < CONFIDENCE_THRESHOLD) :
    (predict_image db req).success = true ∧
    (predict_image db req).status = 200 ∧
    (predict_image db req).db = db ∧
    (predict_image db req).data.map (fun d => d.primary_prediction.disease) = some "Unknown" ∧
    (predict_image db req).data.map (fun d => d.top_3_predictions) = some [] ∧
    (predict_image db req).data.map (fun d => d.primary_prediction.treatment) =
      some UNKNOWN_TREATMENT_MSG ∧
    (∀ kv ∈ treatment_suggestions, kv.2 ≠ UNKNOWN_TREATMENT_MSG) := by
  rw [predict_image_unknown db req probs s h1 h2 h3 h4 h5 h6 hs hc]
  refine ⟨rfl, rfl, rfl, ?_, ?_, ?_, by decide⟩ <;> simp [unknownOutcome]

theorem C2_witness :
    (predict_image db0 reqLow).success = true ∧
    (predict_image db0 reqLow).db = db0 ∧
    (predict_image db0 reqLow).data.map (fun d => d.primary_prediction.disease) =
      some "Unknown" ∧
    (predict_image db0 reqLow).data.map (fun d => d.top_3_predictions) = some [] := by
  have h := C2_low_confidence_short_circuits db0 reqLow probsLow sLow rfl validate_okFile
    rfl rfl rfl rfl (by rw [classNames_reqLow]; exact summary_probsLow)
    (by norm_num [sLow, CONFIDENCE_THRESHOLD])
  exact ⟨h.1, h.2.2.1, h.2.2.2.1, h.2.2.2.2.1⟩

/-- C5: when the storage write for a confident prediction fails, the
request still returns an HTTP 200 success with the full classification
payload, `saved_image_id` is null, and the database is unchanged — the
persistence failure never changes the HTTP outcome. -/
theorem C5_persistence_failure_still_succeeds (db : DB) (req : Request) (probs : List ℚ)
    (s : PredictionSummary)
    (h1 : req.has_image = true) (h2 : validate_image_file req.file = [])
    (h3 : req.preprocess_ok = true) (h4 : req.model_exists = true)
    (h5 : req.model_loads = true) (h6 : req.inference = some probs)
    (hs : get_prediction_summary probs (classNamesFor (detectionTypeOf req)) = some s)
    (hc : ¬ s.primary_confidence < CONFIDENCE_THRESHOLD)
    (hstore : req.storage_ok = false) :
    (predict_image db req).status = 200 ∧
    (predict_image db req).success = true ∧
    (predict_image db req).db = db ∧
    (predict_image db req).data.map (fun d => d.saved_image_id) = some none ∧
    (predict_image db req).data.map (fun d => d.primary_prediction.disease) =
      some s.primary_disease ∧
    (predict_image db req).data.map (fun d => d.primary_prediction.confidence_score) =
      some s.primary_confidence ∧
    (predict_image db req).data.map (fun d => d.top_3_predictions.length) =
      some s.top_3.length := by
  rw [predict_image_confident db req probs s h1 h2 h3 h4 h5 h6 hs hc]
  refine ⟨rfl, rfl, ?_, ?_, ?_, ?_, ?_⟩ <;>
    simp [confidentOutcome, hstore, djangoCreateOk_predictionLog_false]

theorem C5_witness :
    (predict_image db0 reqNoStore).status = 200 ∧
    (predict_image db0 reqNoStore).success = true ∧
    (predict_image db0 reqNoStore).db = db0 ∧
    (predict_image db0 reqNoStore).data.map (fun d => d.saved_image_id) = some none := by
  have h := C5_persistence_failure_still_succeeds db0 reqNoStore probsHigh sHigh rfl
    validate_okFile rfl rfl rfl rfl
    (by simp [classNamesFor, detectionTypeOf, reqNoStore, reqHigh]; exact summary_probsHigh)
    (by norm_num [sHigh, CONFIDENCE_THRESHOLD]) rfl
  exact ⟨h.1, h.2.1, h.2.2.1, h.2.2.2.1⟩

/-- Destructuring a successful `get_prediction_summary`: the primary
fields come from the head of `top_3_indices`. -/
theorem get_prediction_summary_eq (probs : List ℚ) (labels : List String)
    (s : PredictionSummary) (hs : get_prediction_summary probs labels = some s) :
    ∃ i0 p0, (top_3_indices probs).head? = some i0 ∧ probs.get? i0 = some p0 ∧
      s.primary_confidence = p0 * 100 ∧
      s.confidence_level = calculate_confidence_level p0 ∧
      labels.get? i0 = some s.primary_disease := by
  unfold get_prediction_summary at hs
  split at hs
  · exact absurd hs (by simp)
  · rename_i i0 hh
    split at hs
    · rename_i d0 p0 t3 hd0 hp0 ht3
      obtain hps := Option.some.inj hs
      subst hps
      exact ⟨i0, p0, hh, hp0, rfl, rfl, hd0⟩
    · exact absurd hs (by simp)

/-- C4 (amended): the tier function maps ≥0.8 to "High", ≥0.6 to
"Medium", ≥0.4 to "Low" and anything lower to "Very Low", and the
confident branch reports exactly that function of the primary raw
probability — but the low-confidence "Unknown" branch reports the
hardcoded tier "Low" regardless of the probability. -/
theorem C4_amended_confidence_tier (db : DB) (req : Request) (probs : List ℚ)
    (s : PredictionSummary)
    (h1 : req.has_image = true) (h2 : validate_image_file req.file = [])
    (h3 : req.preprocess_ok = true) (h4 : req.model_exists = true)
    (h5 : req.model_loads = true) (h6 : req.inference = some probs)
    (hs : get_prediction_summary probs (classNamesFor (detectionTypeOf req)) = some s) :
    (∀ c : ℚ, calculate_confidence_level c =
      if c ≥ 8/10 then "High" else if c ≥ 6/10 then "Medium"
      else if c ≥ 4/10 then "Low" else "Very Low") ∧
    s.confidence_level = calculate_confidence_level (s.primary_confidence / 100) ∧
    (predict_image db req).data.map (fun d => d.primary_prediction.confidence_level) =
      some (if s.primary_confidence < CONFIDENCE_THRESHOLD then "Low"
            else calculate_confidence_level (s.primary_confidence / 100)) := by
  obtain ⟨i0, p0, hh, hp0, hpc, hcl, hd⟩ := get_prediction_summary_eq _ _ _ hs
  have hdiv : s.primary_confidence / 100 = p0 := by rw [hpc]; ring
  have hlev : s.confidence_level = calculate_confidence_level (s.primary_confidence / 100) := by
    rw [hdiv, hcl]
  refine ⟨fun c => rfl, hlev, ?_⟩
  by_cases hc : s.primary_confidence < CONFIDENCE_THRESHOLD
  · rw [predict_image_unknown db req probs s h1 h2 h3 h4 h5 h6 hs hc, if_pos hc]
    simp [unknownOutcome]
  · rw [predict_image_confident db req probs s h1 h2 h3 h4 h5 h6 hs hc, if_neg hc]
    simp [confidentOutcome, hlev]

theorem C4_amended_witness :
    sHigh.confidence_level = calculate_confidence_level (sHigh.primary_confidence / 100) ∧
    (predict_image db0 reqHigh).data.map (fun d => d.primary_prediction.confidence_level) =
      some (if sHigh.primary_confidence < CONFIDENCE_THRESHOLD then "Low"
            else calculate_confidence_level (sHigh.primary_confidence / 100)) := by
  have h := C4_amended_confidence_tier db0 reqHigh probsHigh sHigh rfl validate_okFile
    rfl rfl rfl rfl (by rw [classNames_reqHigh]; exact summary_probsHigh)
  exact ⟨h.2.1, h.2.2⟩

/-- C9: any detection type other than the exact string "fruit" silently
selects the leaf model and its 8-entry label set, and such a request is
never rejected for its detection type — it completes with HTTP 200 and a
"leaf" payload. -/
theorem C9_non_fruit_detection_selects_leaf (db : DB) (req : Request) (probs : List ℚ)
    (s : PredictionSummary)
    (hdt : detectionTypeOf req ≠ "fruit")
    (h1 : req.has_image = true) (h2 : validate_image_file req.file = [])
    (h3 : req.preprocess_ok = true) (h4 : req.model_exists = true)
    (h5 : req.model_loads = true) (h6 : req.inference = some probs)
    (hs : get_prediction_summary probs (classNamesFor (detectionTypeOf req)) = some s) :
    modelUsedFor (detectionTypeOf req) = "leaf" ∧
    classNamesFor (detectionTypeOf req) = LEAF_CLASS_NAMES ∧
    LEAF_CLASS_NAMES.length = 8 ∧
    (predict_image db req).status = 200 ∧
    (predict_image db req).success = true ∧
    (predict_image db req).data.map (fun d => d.model_used) = some "leaf" ∧
    (predict_image db req).data.map (fun d => d.total_diseases_checked) = some 8 := by
  have hm : modelUsedFor (detectionTypeOf req) = "leaf" := by simp [modelUsedFor, hdt]
  have hcn : classNamesFor (detectionTypeOf req) = LEAF_CLASS_NAMES := by
    simp [classNamesFor, hdt]
  have hps : predict_image db req = unknownOutcome db req s ∨
      predict_image db req = confidentOutcome db req s := by
    by_cases hc : s.primary_confidence < CONFIDENCE_THRESHOLD
    · exact Or.inl (predict_image_unknown db req probs s h1 h2 h3 h4 h5 h6 hs hc)
    · exact Or.inr (predict_image_confident db req probs s h1 h2 h3 h4 h5 h6 hs hc)
  rcases hps with h | h <;> rw [h] <;> refine ⟨hm, hcn, rfl, rfl, rfl, ?_, ?_⟩ <;>
    simp [unknownOutcome, confidentOutcome, hm, hcn, LEAF_CLASS_NAMES]

theorem C9_witness :
    modelUsedFor (detectionTypeOf reqBanana) = "leaf" ∧
    (predict_image db0 reqBanana).status = 200 ∧
    (predict_image db0 reqBanana).data.map (fun d => d.model_used) = some "leaf" ∧
    (predict_image db0 reqBanana).data.map (fun d => d.total_diseases_checked) = some 8 := by
  have hdt : detectionTypeOf reqBanana ≠ "fruit" := by decide
  have h := C9_non_fruit_detection_selects_leaf db0 reqBanana probsHigh sHigh hdt rfl
    validate_okFile rfl rfl rfl rfl
    (by simp only [classNamesFor, detectionTypeOf, reqBanana, reqHigh]
        norm_num
        exact summary_probsHigh)
  exact ⟨h.1, h.2.2.2.1, h.2.2.2.2.2.1, h.2.2.2.2.2.2⟩

/-- C7: a confirmation request for an image that already has a
confirmation is rejected with a 400 failure response and creates no new
record — the store is unchanged. -/
theorem C7_duplicate_confirmation_rejected (st : ConfState) (req : ConfRequest)
    (iid : ℕ) (b : Bool)
    (h1 : req.image_id = some iid) (h2 : req.is_correct = some b)
    (h3 : req.predicted_disease ≠ "") (h4 : iid ∈ st.images)
    (h5 : st.confirmations.any (fun c => c.image_id = iid) = true) :
    (save_user_confirmation st req).success = false ∧
    (save_user_confirmation st req).status = 400 ∧
    (save_user_confirmation st req).state = st ∧
    (save_user_confirmation st req).message = "Confirmation already exists for this image" := by
  unfold save_user_confirmation
  rw [h1, h2]
  simp [h3, h4, h5]

theorem C7_witness :
    (save_user_confirmation st0 confReq0).success = false ∧
    (save_user_confirmation st0 confReq0).status = 400 ∧
    (save_user_confirmation st0 confReq0).state = st0 := by
  have h := C7_duplicate_confirmation_rejected st0 confReq0 1 true rfl rfl
    (by decide) (by decide) (by decide)
  exact ⟨h.1, h.2.1, h.2.2.1⟩

/-- Every branch of `predict_image` that reports success has HTTP
status 200. -/
theorem predict_image_success_status (db : DB) (req : Request) :
    (predict_image db req).success = true → (predict_image db req).status = 200 := by
  intro hsucc
  by_cases h1 : req.has_image = true
  case neg =>
    simp only [Bool.not_eq_true] at h1
    simp [predict_image, h1] at hsucc
  case pos =>
  by_cases hv : validate_image_file req.file = []
  case neg => simp [predict_image, h1, hv] at hsucc
  case pos =>
  by_cases hp : req.preprocess_ok = true
  case neg =>
    simp only [Bool.not_eq_true] at hp
    simp [predict_image, h1, hv, hp] at hsucc
  case pos =>
  by_cases hme : req.model_exists = true
  case neg =>
    simp only [Bool.not_eq_true] at hme
    simp [predict_image, h1, hv, hp, hme] at hsucc
  case pos =>
  by_cases hml : req.model_loads = true
  case neg =>
    simp only [Bool.not_eq_true] at hml
    simp [predict_image, h1, hv, hp, hme, hml] at hsucc
  case pos =>
  cases hinf : req.inference with
  | none => simp [predict_image, h1, hv, hp, hme, hml, hinf] at hsucc
  | some probs =>
  cases hgs : get_prediction_summary probs (classNamesFor (detectionTypeOf req)) with
  | none => simp [predict_image, h1, hv, hp, hme, hml, hinf, hgs] at hsucc
  | some s =>
  by_cases hc : s.primary_confidence < CONFIDENCE_THRESHOLD
  · rw [predict_image_unknown db req probs s h1 hv hp hme hml hinf hgs hc]; rfl
  · rw [predict_image_confident db req probs s h1 hv hp hme hml hinf hgs hc]; rfl

/-- C8: a missing image or a validation failure returns 400 and a
preprocessing failure returns 500, all without loading or invoking the
model; inference failures and summary errors return 500; and every
successfully executed prediction (including the low-confidence branch)
returns 200. -/
theorem C8_status_codes (db : DB) (req : Request) (probs : List ℚ) :
    (req.has_image = false →
      (predict_image db req).status = 400 ∧ (predict_image db req).modelInvoked = false) ∧
    (req.has_image = true → validate_image_file req.file ≠ [] →
      (predict_image db req).status = 400 ∧ (predict_image db req).modelInvoked = false) ∧
    (req.has_image = true → validate_image_file req.file = [] → req.preprocess_ok = false →
      (predict_image db req).status = 500 ∧ (predict_image db req).modelInvoked = false) ∧
    (req.has_image = true → validate_image_file req.file = [] → req.preprocess_ok = true →
      req.model_exists = true → req.model_loads = true → req.inference = none →
      (predict_image db req).status = 500) ∧
    (req.has_image = true → validate_image_file req.file = [] → req.preprocess_ok = true →
      req.model_exists = true → req.model_loads = true → req.inference = some probs →
      get_prediction_summary probs (classNamesFor (detectionTypeOf req)) = none →
      (predict_image db req).status = 500) ∧
    ((predict_image db req).success = true → (predict_image db req).status = 200) := by
  refine ⟨?_, ?_, ?_, ?_, ?_, predict_image_success_status db req⟩
  · intro h1; constructor <;> simp [predict_image, h1]
  · intro h1 hv; constructor <;> simp [predict_image, h1, hv]
  · intro h1 hv hp; constructor <;> simp [predict_image, h1, hv, hp]
  · intro h1 hv hp hm hl hi; simp [predict_image, h1, hv, hp, hm, hl, hi]
  · intro h1 hv hp hm hl hi hsum; simp [predict_image, h1, hv, hp, hm, hl, hi, hsum]

theorem C8_witness :
    (predict_image db0 reqBadFile).status = 400 ∧
    (predict_image db0 reqBadFile).modelInvoked = false ∧
    (predict_image db0 reqBadDecode).status = 500 ∧
    (predict_image db0 reqBadDecode).modelInvoked = false := by
  have ha := (C8_status_codes db0 reqBadFile probsHigh).2.1 rfl (by decide)
  have hb := (C8_status_codes db0 reqBadDecode probsHigh).2.2.1 rfl validate_okFile rfl
  exact ⟨ha.1, ha.2, hb.1, hb.2⟩

/-! ### C3: order properties of the top-3 selection -/
theorem insertIdx_mem (v : List ℚ) (i k : ℕ) (l : List ℕ) :
    k ∈ insertIdx v i l ↔ k = i ∨ k ∈ l := by
  induction l with
  | nil => simp [insertIdx]
  | cons j rest ih =>
    simp only [insertIdx]
    split
    · simp [List.mem_cons]
      try tauto
    · simp [List.mem_cons, ih]
      try tauto

theorem insertIdx_length (v : List ℚ) (i : ℕ) (l : List ℕ) :
    (insertIdx v i l).length = l.length + 1 := by
  induction l with
  | nil => rfl
  | cons j rest ih =>
    simp only [insertIdx]
    split <;> simp [ih]

theorem ltIdx_of_lt (v : List ℚ) {i j k : ℕ}
    (h1 : v.getD i 0 < v.getD j 0) (h2 : ltIdx v j k) :
    v.getD i 0 < v.getD k 0 := by
  rcases h2 with h | ⟨he, _⟩
  · exact h1.trans h
  · exact he ▸ h1

theorem insertIdx_pairwise (v : List ℚ) (i : ℕ) (l : List ℕ)
    (hl : l.Pairwise (ltIdx v)) (hb : ∀ j ∈ l, j < i) :
    (insertIdx v i l).Pairwise (ltIdx v) := by
  induction l with
  | nil => simp [insertIdx]
  | cons j rest ih =>
    obtain ⟨hj, hrest⟩ := List.pairwise_cons.mp hl
    have hbi : ∀ m ∈ rest, m < i := fun m hm => hb m (List.mem_cons_of_mem _ hm)
    simp only [insertIdx]
    split
    · rename_i hlt
      refine List.Pairwise.cons ?_ hl
      intro k hk
      rcases List.mem_cons.mp hk with rfl | hk'
      · exact Or.inl hlt
      · exact Or.inl (ltIdx_of_lt v hlt (hj k hk'))
    · rename_i hnlt
      refine List.Pairwise.cons ?_ (ih hrest hbi)
      intro m hm
      rcases (insertIdx_mem v i m rest).mp hm with rfl | hm'
      · have hji : j < m := hb j (List.mem_cons_self _ _)
        rcases lt_or_eq_of_le (not_lt.mp hnlt) with h | h
        · exact Or.inl h
        · exact Or.inr ⟨h, hji⟩
      · exact hj m hm'

theorem argsortAux_mem (v : List ℚ) (n k : ℕ) : k ∈ argsortAux v n ↔ k < n := by
  induction n with
  | zero => simp [argsortAux]
  | succ m ih =>
    simp only [argsortAux, insertIdx_mem, ih]
    omega

theorem argsortAux_length (v : List ℚ) (n : ℕ) : (argsortAux v n).length = n := by
  induction n with
  | zero => rfl
  | succ m ih => simp [argsortAux, insertIdx_length, ih]

theorem argsortAux_pairwise (v : List ℚ) (n : ℕ) :
    (argsortAux v n).Pairwise (ltIdx v) := by
  induction n with
  | zero => simp [argsortAux]
  | succ m ih =>
    exact insertIdx_pairwise v m _ ih (fun j hj => (argsortAux_mem v m j).mp hj)

theorem top_3_indices_length (v : List ℚ) (h3 : 3 ≤ v.length) :
    (top_3_indices v).length = 3 := by
  simp only [top_3_indices, List.length_reverse, List.length_drop, argsort,
    argsortAux_length]
  omega

theorem top_3_indices_mem (v : List ℚ) (k : ℕ) (hk : k ∈ top_3_indices v) :
    k < v.length := by
  simp only [top_3_indices, List.mem_reverse] at hk
  exact (argsortAux_mem v v.length k).mp ((List.drop_sublist _ _).subset hk)

theorem top_3_indices_sorted (v : List ℚ) :
    (top_3_indices v).Pairwise (fun i j => ltIdx v j i) := by
  have h := (argsortAux_pairwise v v.length).sublist
    (List.drop_sublist (v.length - 3) (argsort v))
  exact List.pairwise_reverse.mpr h

theorem top_3_indices_ne_nil (v : List ℚ) (h3 : 3 ≤ v.length) :
    top_3_indices v ≠ [] := by
  intro hnil
  have := top_3_indices_length v h3
  rw [hnil] at this
  simp at this

theorem top_3_indices_head_max (v : List ℚ) (h3 : 3 ≤ v.length) :
    ∀ j < v.length, v.getD j 0 ≤ v.getD ((top_3_indices v).getD 0 0) 0 := by
  obtain ⟨i0, rest, ht⟩ := List.exists_cons_of_ne_nil (top_3_indices_ne_nil v h3)
  intro j hj
  rw [ht, List.getD_cons_zero]
  by_cases hjt : j ∈ top_3_indices v
  · rw [ht] at hjt
    rcases List.mem_cons.mp hjt with rfl | hj'
    · exact le_refl _
    · have hp := top_3_indices_sorted v
      rw [ht] at hp
      obtain ⟨hhead, _⟩ := List.pairwise_cons.mp hp
      rcases hhead j hj' with h | ⟨he, _⟩
      · exact le_of_lt h
      · exact le_of_eq he
  · have hjmem : j ∈ argsort v := (argsortAux_mem v v.length j).mpr hj
    have hsplit : (argsort v).take (v.length - 3) ++ (argsort v).drop (v.length - 3) =
        argsort v := List.take_append_drop _ _
    have hp : ((argsort v).take (v.length - 3) ++
        (argsort v).drop (v.length - 3)).Pairwise (ltIdx v) := by
      rw [hsplit]
      exact argsortAux_pairwise v v.length
    obtain ⟨-, -, hcross⟩ := List.pairwise_append.mp hp
    have hjtake : j ∈ (argsort v).take (v.length - 3) := by
      rcases List.mem_append.mp (hsplit ▸ hjmem) with h | h
      · exact h
      · exact absurd (by simpa [top_3_indices, List.mem_reverse] using h) hjt
    have hi0 : i0 ∈ (argsort v).drop (v.length - 3) := by
      have : i0 ∈ top_3_indices v := ht ▸ List.mem_cons_self _ _
      simpa [top_3_indices, List.mem_reverse] using this
    rcases hcross j hjtake i0 hi0 with h | ⟨he, _⟩
    · exact le_of_lt h
    · exact le_of_eq he

theorem mkTop3_isSome (v : List ℚ) (labels : List String) (idxs : List ℕ)
    (hb : ∀ i ∈ idxs, i < v.length) (hlen : labels.length = v.length) :
    ∀ r, ∃ es, mkTop3 v labels r idxs = some es := by
  induction idxs with
  | nil => exact fun r => ⟨[], rfl⟩
  | cons i rest ih =>
    intro r
    have hi : i < v.length := hb i (List.mem_cons_self _ _)
    have hlab : i < labels.length := hlen ▸ hi
    obtain ⟨tail, htail⟩ := ih (fun m hm => hb m (List.mem_cons_of_mem _ hm)) (r + 1)
    refine ⟨{ rank := r + 1, disease := labels.get ⟨i, hlab⟩,
              confidence := round2 (v.get ⟨i, hi⟩ * 100) } :: tail, ?_⟩
    simp only [mkTop3, List.get?_eq_get hlab, List.get?_eq_get hi, htail]

/-- C3 (amended): for every probability vector and label list of equal
length at least 3, the summary exists, its primary prediction is the
label at the head of `top_3_indices`, that head carries a maximal
probability, and the top-3 index list is sorted descending by
probability with exact-probability ties broken by DESCENDING original
index (last-seen wins) — the reverse of the claimed ascending
tie-break. -/
theorem C3_amended_top3_order (v : List ℚ) (labels : List String)
    (hlen : labels.length = v.length) (h3 : 3 ≤ v.length) :
    ∃ s, get_prediction_summary v labels = some s ∧
      (top_3_indices v).length = 3 ∧
      labels.get? ((top_3_indices v).getD 0 0) = some s.primary_disease ∧
      (∀ j < v.length, v.getD j 0 ≤ v.getD ((top_3_indices v).getD 0 0) 0) ∧
      (top_3_indices v).Pairwise (fun i j => ltIdx v j i) := by
  obtain ⟨i0, rest, ht⟩ := List.exists_cons_of_ne_nil (top_3_indices_ne_nil v h3)
  have hi0 : i0 < v.length := top_3_indices_mem v i0 (ht ▸ List.mem_cons_self _ _)
  have hi0lab : i0 < labels.length := hlen ▸ hi0
  obtain ⟨t3, ht3⟩ := mkTop3_isSome v labels (top_3_indices v)
    (fun i hi => top_3_indices_mem v i hi) hlen 0
  refine ⟨{ primary_disease := labels.get ⟨i0, hi0lab⟩,
            primary_confidence := v.get ⟨i0, hi0⟩ * 100,
            top_3 := t3,
            confidence_level := calculate_confidence_level (v.get ⟨i0, hi0⟩) }, ?_, ?_, ?_, ?_, ?_⟩
  · unfold get_prediction_summary
    rw [ht] at ht3
    rw [ht]
    simp only [List.head?_cons, List.get?_eq_get hi0lab, List.get?_eq_get hi0, ht3]
  · exact top_3_indices_length v h3
  · rw [ht, List.getD_cons_zero]
    exact List.get?_eq_get hi0lab
  · exact top_3_indices_head_max v h3
  · exact top_3_indices_sorted v

theorem C3_amended_witness :
    ∃ s, get_prediction_summary probsHigh LEAF_CLASS_NAMES = some s ∧
      (top_3_indices probsHigh).length = 3 ∧
      LEAF_CLASS_NAMES.get? ((top_3_indices probsHigh).getD 0 0) = some s.primary_disease ∧
      (∀ j < probsHigh.length, probsHigh.getD j 0 ≤
        probsHigh.getD ((top_3_indices probsHigh).getD 0 0) 0) ∧
      (top_3_indices probsHigh).Pairwise (fun i j => ltIdx probsHigh j i) :=
  C3_amended_top3_order probsHigh LEAF_CLASS_NAMES (by decide) (by decide)
